import Mathlib

/-
Verification of the hipBLAS client test routines `testing_her2k`
(src/clients/include/testing_her2k.hpp) and `testing_sbmv_batched`
(src/clients/include/testing_sbmv_batched.hpp).

Each routine is embedded as a pure function from its arguments and an
environment (the outcomes of the external GPU library calls, device
allocations and host/device transfers) to the returned status together
with a trace of the observable actions the routine performs, in program
order.  Buffer initialization by the deterministic random generator is
modelled separately.
-/

set_option autoImplicit false

namespace HipblasTest

/-- Status codes of the GPU library (`hipblasStatus_t`), the closed
enumeration the test routines return. -/
inductive HipblasStatus where
  | success
  | invalidValue
  | allocFailed
  | mappingError
  | notInitialized
  | executionFailed
  | internalError
  deriving DecidableEq, Repr

/-- Operation mode (`hipblasOperation_t`): no transpose, transpose,
conjugate transpose. -/
inductive HipblasOperation where
  | N
  | T
  | C
  deriving DecidableEq, Repr

/-- Fill mode (`hipblasFillMode_t`). -/
inductive HipblasFillMode where
  | upper
  | lower
  deriving DecidableEq, Repr

/-- Observable actions of a test routine, recorded in program order.
Sizes are in elements of the payload type `T`; the `ok` flag of a copy
records whether the transfer reported `hipSuccess`. -/
inductive Event where
  | createHandle
  | destroyHandle
  | allocHost (size : Int)
  | allocDevice (size : Int)
  | memcpyH2D (size : Int) (ok : Bool)
  | memcpyD2H (size : Int) (ok : Bool)
  | callGpu
  | callCpu
  | compare
  deriving DecidableEq, Repr

/- ## testing_her2k (src/clients/include/testing_her2k.hpp) -/

/-- The fields of `Arguments` read by `testing_her2k`. -/
structure Her2kArgs where
  N : Int
  K : Int
  lda : Int
  ldb : Int
  ldc : Int
  transA : HipblasOperation
  uplo : HipblasFillMode
  unit_check : Bool
  timing : Bool

/-- Outcomes of the external calls made by `testing_her2k`: the status
returned by `hipblasHer2k`, and whether each of the four `hipMemcpy`
calls succeeds (the source discards these return values). -/
structure Her2kEnv where
  gpuStatus : HipblasStatus
  copyAok : Bool
  copyBok : Bool
  copyCok : Bool
  copyOutOk : Bool

/-- The argument sanity check of `testing_her2k` (lines 38-39). -/
def her2kInvalid (a : Her2kArgs) : Prop :=
  a.N < 0 ∨ a.K < 0 ∨ a.ldc < a.N
    ∨ (a.transA = HipblasOperation.N ∧ (a.lda < a.N ∨ a.ldb < a.N))
    ∨ (a.transA ≠ HipblasOperation.N ∧ (a.lda < a.K ∨ a.ldb < a.K))

instance (a : Her2kArgs) : Decidable (her2kInvalid a) := by
  unfold her2kInvalid; infer_instance

/-- `K1 = (transA == HIPBLAS_OP_N ? K : N)` (line 44). -/
def her2kK1 (a : Her2kArgs) : Int :=
  if a.transA = HipblasOperation.N then a.K else a.N

/-- `A_size = lda * K1` (line 45). -/
def her2kAsize (a : Her2kArgs) : Int := a.lda * her2kK1 a

/-- `B_size = lda * K1` (line 46; the source uses `lda`, not `ldb`). -/
def her2kBsize (a : Her2kArgs) : Int := a.lda * her2kK1 a

/-- `C_size = ldc * N` (line 47). -/
def her2kCsize (a : Her2kArgs) : Int := a.ldc * a.N

/-- Events of `testing_her2k` up to and including the GPU call (lines
50-95): host vectors hA, hB, hC, hC2 and device vectors dA, dB, dC are
allocated, the handle is created, three host-to-device copies are issued
(their statuses discarded by the source), and `hipblasHer2k` is
called once. -/
def her2kPreEvents (a : Her2kArgs) (e : Her2kEnv) : List Event :=
  [Event.allocHost (her2kAsize a), Event.allocHost (her2kBsize a),
   Event.allocHost (her2kCsize a), Event.allocHost (her2kCsize a),
   Event.allocDevice (her2kAsize a), Event.allocDevice (her2kBsize a),
   Event.allocDevice (her2kCsize a),
   Event.createHandle,
   Event.memcpyH2D (her2kAsize a) e.copyAok,
   Event.memcpyH2D (her2kBsize a) e.copyBok,
   Event.memcpyH2D (her2kCsize a) e.copyCok,
   Event.callGpu]

/-- Embedding of `testing_her2k`: the returned status and the trace of
observable actions, following the source line by line.  An argument
failing the sanity check returns invalid-value before any allocation or
handle creation; a non-success GPU status destroys the handle and is
returned; otherwise the result is copied back (status discarded), the
CPU oracle and the comparison run under `unit_check`, the handle is
destroyed and success is returned. -/
def testing_her2k (a : Her2kArgs) (e : Her2kEnv) : HipblasStatus × List Event :=
  if her2kInvalid a then
    (HipblasStatus.invalidValue, [])
  else if e.gpuStatus ≠ HipblasStatus.success then
    (e.gpuStatus, her2kPreEvents a e ++ [Event.destroyHandle])
  else if a.unit_check then
    (HipblasStatus.success,
      her2kPreEvents a e ++ [Event.memcpyD2H (her2kCsize a) e.copyOutOk]
        ++ [Event.callCpu, Event.compare, Event.destroyHandle])
  else
    (HipblasStatus.success,
      her2kPreEvents a e ++ [Event.memcpyD2H (her2kCsize a) e.copyOutOk]
        ++ [Event.destroyHandle])

/- ## testing_sbmv_batched (src/clients/include/testing_sbmv_batched.hpp) -/

/-- The fields of `Arguments` read by `testing_sbmv_batched`. -/
structure SbmvArgs where
  M : Int
  K : Int
  lda : Int
  incx : Int
  incy : Int
  batch_count : Int
  uplo : HipblasFillMode
  unit_check : Bool

/-- Outcomes of the external calls made by `testing_sbmv_batched`:
whether each device allocation yields a non-null pointer, the result of
each host/device transfer, and the status of `hipblasSbmvBatched`. -/
structure SbmvEnv where
  gpuStatus : HipblasStatus
  dAok : Bool
  dxok : Bool
  dyok : Bool
  bAlastOk : Bool
  bxlastOk : Bool
  bylastOk : Bool
  copyAok : Nat → Bool
  copyXok : Nat → Bool
  copyYok : Nat → Bool
  copyPAok : Bool
  copyPXok : Bool
  copyPYok : Bool
  copyOutOk : Nat → Bool

/-- The argument sanity check of `testing_sbmv_batched` (line 43). -/
def sbmvInvalid (a : SbmvArgs) : Prop :=
  a.M < 0 ∨ a.K < 0 ∨ a.lda < a.K + 1 ∨ a.incx = 0 ∨ a.incy = 0 ∨ a.batch_count < 0

instance (a : SbmvArgs) : Decidable (sbmvInvalid a) := by
  unfold sbmvInvalid; infer_instance

/-- `A_size = lda * M` (line 32). -/
def sbmvAsize (a : SbmvArgs) : Int := a.lda * a.M

/-- `X_size = M * incx` (line 33). -/
def sbmvXsize (a : SbmvArgs) : Int := a.M * a.incx

/-- `Y_size = M * incy` (line 34). -/
def sbmvYsize (a : SbmvArgs) : Int := a.M * a.incy

/-- The device allocation check of `testing_sbmv_batched` (lines 79-80):
the pointer arrays must be non-null, and the last batch buffer of each
of A, x, y must be non-null unless its size is zero. -/
def sbmvAllocFailed (a : SbmvArgs) (e : SbmvEnv) : Prop :=
  e.dAok = false ∨ e.dxok = false ∨ e.dyok = false
    ∨ (e.bAlastOk = false ∧ sbmvAsize a ≠ 0)
    ∨ (e.bxlastOk = false ∧ sbmvXsize a ≠ 0)
    ∨ (e.bylastOk = false ∧ sbmvYsize a ≠ 0)

instance (a : SbmvArgs) (e : SbmvEnv) : Decidable (sbmvAllocFailed a e) := by
  unfold sbmvAllocFailed; infer_instance

/-- One test: all three host-to-device copies of batch item `b` report
`hipSuccess` (line 107). -/
def sbmvCopyOk (e : SbmvEnv) (b : Nat) : Prop :=
  e.copyAok b = true ∧ e.copyXok b = true ∧ e.copyYok b = true

instance (e : SbmvEnv) (b : Nat) : Decidable (sbmvCopyOk e b) := by
  unfold sbmvCopyOk; infer_instance

/-- The per-batch initialization and copy loop of `testing_sbmv_batched`
(lines 89-112), on `n` remaining iterations starting at batch index `b`:
each iteration allocates the four host vectors (hA, hx, hy and the hres
copy of hy), performs the three host-to-device copies, and aborts the
loop when any copy fails.  Returns the events of the executed iterations
and whether the loop ran to completion. -/
def sbmvBatchLoop (a : SbmvArgs) (e : SbmvEnv) : Nat → Nat → List Event × Bool
  | 0, _ => ([], true)
  | n + 1, b =>
    let evs : List Event :=
      [Event.allocHost (sbmvAsize a), Event.allocHost (sbmvXsize a),
       Event.allocHost (sbmvYsize a), Event.allocHost (sbmvYsize a),
       Event.memcpyH2D (sbmvAsize a) (e.copyAok b),
       Event.memcpyH2D (sbmvXsize a) (e.copyXok b),
       Event.memcpyH2D (sbmvYsize a) (e.copyYok b)]
    if sbmvCopyOk e b then
      let rest := sbmvBatchLoop a e n (b + 1)
      (evs ++ rest.1, rest.2)
    else
      (evs, false)

/-- Device allocations performed by `testing_sbmv_batched` after handle
creation (lines 69-76): `batch_count` device buffers for each of A, x, y
and three pointer arrays of `batch_count` pointers each. -/
def sbmvAllocEvents (a : SbmvArgs) : List Event :=
  List.replicate a.batch_count.toNat (Event.allocDevice (sbmvAsize a))
    ++ List.replicate a.batch_count.toNat (Event.allocDevice (sbmvXsize a))
    ++ List.replicate a.batch_count.toNat (Event.allocDevice (sbmvYsize a))
    ++ [Event.allocDevice a.batch_count, Event.allocDevice a.batch_count,
        Event.allocDevice a.batch_count]

/-- Events of `testing_sbmv_batched` up to the device allocation check:
handle creation (line 53) followed by the device allocations. -/
def sbmvPreEvents (a : SbmvArgs) : List Event :=
  Event.createHandle :: sbmvAllocEvents a

/-- Events of the per-batch initialization and copy loop, run over all
`batch_count` items starting at index 0. -/
def sbmvLoopEvents (a : SbmvArgs) (e : SbmvEnv) : List Event :=
  (sbmvBatchLoop a e a.batch_count.toNat 0).1

/-- The per-batch loop ran to completion: no host-to-device copy of any
batch item failed. -/
def sbmvLoopOk (a : SbmvArgs) (e : SbmvEnv) : Prop :=
  (sbmvBatchLoop a e a.batch_count.toNat 0).2 = true

instance (a : SbmvArgs) (e : SbmvEnv) : Decidable (sbmvLoopOk a e) := by
  unfold sbmvLoopOk; infer_instance

/-- The three host-to-device copies of the pointer arrays (lines
114-116), each of `batch_count` pointers. -/
def sbmvPtrEvents (a : SbmvArgs) (e : SbmvEnv) : List Event :=
  [Event.memcpyH2D a.batch_count e.copyPAok,
   Event.memcpyH2D a.batch_count e.copyPXok,
   Event.memcpyH2D a.batch_count e.copyPYok]

/-- All three pointer-array copies report `hipSuccess` (line 117). -/
def sbmvPtrOk (e : SbmvEnv) : Prop :=
  e.copyPAok = true ∧ e.copyPXok = true ∧ e.copyPYok = true

instance (e : SbmvEnv) : Decidable (sbmvPtrOk e) := by
  unfold sbmvPtrOk; infer_instance

/-- The device-to-host result copies (lines 150-153), one per batch
item; the source discards their statuses. -/
def sbmvOutEvents (a : SbmvArgs) (e : SbmvEnv) : List Event :=
  (List.range a.batch_count.toNat).map
    (fun b => Event.memcpyD2H (sbmvYsize a) (e.copyOutOk b))

/-- Embedding of `testing_sbmv_batched`: the returned status and the
trace of observable actions, following the source line by line.  The
sanity check rejects bad arguments before any allocation or handle
creation; a zero batch count returns success immediately; the handle is
created, device buffers allocated and checked; the per-batch loop copies
data to the device, any failed copy destroying the handle and returning
a mapping error, as does a failed pointer-array copy; the GPU routine is
called once, a non-success status destroying the handle and being
returned; otherwise results are copied back (statuses discarded), the
CPU oracle and comparison run under `unit_check`, the handle is
destroyed and success returned. -/
def testing_sbmv_batched (a : SbmvArgs) (e : SbmvEnv) : HipblasStatus × List Event :=
  if sbmvInvalid a then
    (HipblasStatus.invalidValue, [])
  else if a.batch_count = 0 then
    (HipblasStatus.success, [])
  else if sbmvAllocFailed a e then
    (HipblasStatus.allocFailed, sbmvPreEvents a ++ [Event.destroyHandle])
  else if ¬ sbmvLoopOk a e then
    (HipblasStatus.mappingError,
      sbmvPreEvents a ++ sbmvLoopEvents a e ++ [Event.destroyHandle])
  else if ¬ sbmvPtrOk e then
    (HipblasStatus.mappingError,
      sbmvPreEvents a ++ sbmvLoopEvents a e ++ sbmvPtrEvents a e
        ++ [Event.destroyHandle])
  else if e.gpuStatus ≠ HipblasStatus.success then
    (e.gpuStatus,
      sbmvPreEvents a ++ sbmvLoopEvents a e ++ sbmvPtrEvents a e
        ++ [Event.callGpu, Event.destroyHandle])
  else if a.unit_check then
    (HipblasStatus.success,
      sbmvPreEvents a ++ sbmvLoopEvents a e ++ sbmvPtrEvents a e
        ++ [Event.callGpu] ++ sbmvOutEvents a e
        ++ List.replicate a.batch_count.toNat Event.callCpu
        ++ [Event.compare, Event.destroyHandle])
  else
    (HipblasStatus.success,
      sbmvPreEvents a ++ sbmvLoopEvents a e ++ sbmvPtrEvents a e
        ++ [Event.callGpu] ++ sbmvOutEvents a e ++ [Event.destroyHandle])

/- ## Buffer initialization model -/

/-- Modelled from the spec: `hipblas_init(A, M, N, lda)` from utility.h is
not under src/; the spec describes it as deterministic randomization of a
matrix buffer of `M` logical rows and `N` logical columns stored with
leading dimension `lda` (stride between consecutive columns).  The
indices written are `i + j * ld` for `0 <= i < M`, `0 <= j < N`. -/
def initWrites (M N ld : Int) : List Int :=
  (List.range M.toNat).flatMap
    (fun i => (List.range N.toNat).map (fun (j : Nat) => (i : Int) + (j : Int) * ld))

/-- Modelled from the spec: the deterministic random stream.  `srand(1)`
resets the stream; the `k`-th subsequent `rand()` call yields `f k` for
an arbitrary fixed `f`.  `initBuffer f M N ld buf start` is
`hipblas_init` on buffer `buf` with the stream at position `start`:
it writes one fresh stream value at each index of `initWrites M N ld`,
in order, and returns the buffer and the new stream position. -/
def initBuffer (f : Nat → Int) (M N ld : Int) (buf : Int → Int) (start : Nat) :
    (Int → Int) × Nat :=
  (initWrites M N ld).foldl
    (fun acc idx => (Function.update acc.1 idx (f acc.2), acc.2 + 1))
    (buf, start)

/-- The host buffers of one batch item of `testing_sbmv_batched`. -/
structure BatchBufs where
  hA : Int → Int
  hx : Int → Int
  hy : Int → Int

/-- One iteration body of the initialization loop (lines 91-101): fresh
zero-initialized host vectors hA (`M` by `M`, leading dimension `lda`),
hx and hy (row vectors of `M` entries with strides `incx`, `incy`),
filled from the random stream at position `start`. -/
def sbmvInitBatch (f : Nat → Int) (M lda incx incy : Int) (start : Nat) :
    BatchBufs × Nat :=
  let zeroBuf : Int → Int := fun _ => 0
  let rA := initBuffer f M M lda zeroBuf start
  let rx := initBuffer f 1 M incx zeroBuf rA.2
  let ry := initBuffer f 1 M incy zeroBuf rx.2
  (⟨rA.1, rx.1, ry.1⟩, ry.2)

/-- The initialization loop of `testing_sbmv_batched` (lines 89-101) over
`n` batch items with the random stream at position `ctr`: the source
calls `srand(1)` at the start of every iteration (line 98), so each
iteration discards the incoming stream position and fills its buffers
from position 0. -/
def sbmvInitArrays (f : Nat → Int) (M lda incx incy : Int) :
    Nat → Nat → List BatchBufs
  | 0, _ => []
  | n + 1, _ =>
    let r := sbmvInitBatch f M lda incx incy 0
    r.1 :: sbmvInitArrays f M lda incx incy n r.2

/- ## Counting events in a trace -/

/-- Number of occurrences of an event in a trace. -/
def countEvent (ev : Event) : List Event → Nat
  | [] => 0
  | x :: xs => (if x = ev then 1 else 0) + countEvent ev xs

theorem countEvent_append (ev : Event) (l1 l2 : List Event) :
    countEvent ev (l1 ++ l2) = countEvent ev l1 + countEvent ev l2 := by
  induction l1 with
  | nil => simp [countEvent]
  | cons x xs ih => simp [countEvent, ih]; omega

theorem countEvent_replicate (ev x : Event) (n : Nat) :
    countEvent ev (List.replicate n x) = if x = ev then n else 0 := by
  induction n with
  | zero => simp [countEvent]
  | succ n ih =>
    rw [List.replicate_succ]
    simp only [countEvent, ih]
    split <;> omega

theorem countEvent_eq_zero_of_not_mem (ev : Event) (l : List Event)
    (h : ev ∉ l) : countEvent ev l = 0 := by
  induction l with
  | nil => rfl
  | cons x xs ih =>
    simp only [List.mem_cons, not_or] at h
    simp only [countEvent, ih h.2]
    rw [if_neg (fun hx => h.1 hx.symm)]

/- ## Structure of the per-batch loop trace -/

theorem sbmvBatchLoop_events (a : SbmvArgs) (e : SbmvEnv) :
    ∀ n b, ∀ ev ∈ (sbmvBatchLoop a e n b).1,
      (∃ s, ev = Event.allocHost s) ∨ ∃ s k, ev = Event.memcpyH2D s k := by
  intro n
  induction n with
  | zero => intro b ev h; simp [sbmvBatchLoop] at h
  | succ n ih =>
    intro b ev h
    unfold sbmvBatchLoop at h
    by_cases hc : sbmvCopyOk e b
    · rw [if_pos hc] at h
      rcases List.mem_append.mp h with h1 | h2
      · simp only [List.mem_cons, List.not_mem_nil, or_false] at h1
        rcases h1 with rfl | rfl | rfl | rfl | rfl | rfl | rfl
        · exact Or.inl ⟨_, rfl⟩
        · exact Or.inl ⟨_, rfl⟩
        · exact Or.inl ⟨_, rfl⟩
        · exact Or.inl ⟨_, rfl⟩
        · exact Or.inr ⟨_, _, rfl⟩
        · exact Or.inr ⟨_, _, rfl⟩
        · exact Or.inr ⟨_, _, rfl⟩
      · exact ih (b + 1) ev h2
    · rw [if_neg hc] at h
      simp only [List.mem_cons, List.not_mem_nil, or_false] at h
      rcases h with rfl | rfl | rfl | rfl | rfl | rfl | rfl
      · exact Or.inl ⟨_, rfl⟩
      · exact Or.inl ⟨_, rfl⟩
      · exact Or.inl ⟨_, rfl⟩
      · exact Or.inl ⟨_, rfl⟩
      · exact Or.inr ⟨_, _, rfl⟩
      · exact Or.inr ⟨_, _, rfl⟩
      · exact Or.inr ⟨_, _, rfl⟩

theorem sbmvLoopEvents_shape (a : SbmvArgs) (e : SbmvEnv) :
    ∀ ev ∈ sbmvLoopEvents a e,
      (∃ s, ev = Event.allocHost s) ∨ ∃ s k, ev = Event.memcpyH2D s k :=
  sbmvBatchLoop_events a e a.batch_count.toNat 0

theorem sbmvLoopEvents_no_handle (a : SbmvArgs) (e : SbmvEnv) :
    Event.createHandle ∉ sbmvLoopEvents a e
    ∧ Event.destroyHandle ∉ sbmvLoopEvents a e
    ∧ Event.callGpu ∉ sbmvLoopEvents a e
    ∧ Event.callCpu ∉ sbmvLoopEvents a e
    ∧ Event.compare ∉ sbmvLoopEvents a e
    ∧ ∀ s k, Event.memcpyD2H s k ∉ sbmvLoopEvents a e := by
  refine ⟨?_, ?_, ?_, ?_, ?_, ?_⟩
  · intro h
    rcases sbmvLoopEvents_shape a e _ h with ⟨s, hs⟩ | ⟨s, k, hs⟩ <;> exact absurd hs (by simp)
  · intro h
    rcases sbmvLoopEvents_shape a e _ h with ⟨s, hs⟩ | ⟨s, k, hs⟩ <;> exact absurd hs (by simp)
  · intro h
    rcases sbmvLoopEvents_shape a e _ h with ⟨s, hs⟩ | ⟨s, k, hs⟩ <;> exact absurd hs (by simp)
  · intro h
    rcases sbmvLoopEvents_shape a e _ h with ⟨s, hs⟩ | ⟨s, k, hs⟩ <;> exact absurd hs (by simp)
  · intro h
    rcases sbmvLoopEvents_shape a e _ h with ⟨s, hs⟩ | ⟨s, k, hs⟩ <;> exact absurd hs (by simp)
  · intro s k h
    rcases sbmvLoopEvents_shape a e _ h with ⟨t, hs⟩ | ⟨t, m, hs⟩ <;> exact absurd hs (by simp)

theorem sbmvBatchLoop_ok_of_all (a : SbmvArgs) (e : SbmvEnv)
    (hall : ∀ b, sbmvCopyOk e b) : ∀ n b, (sbmvBatchLoop a e n b).2 = true := by
  intro n
  induction n with
  | zero => intro b; rfl
  | succ n ih =>
    intro b
    unfold sbmvBatchLoop
    rw [if_pos (hall b)]
    exact ih (b + 1)

theorem sbmvLoopOk_of_all (a : SbmvArgs) (e : SbmvEnv)
    (hall : ∀ b, sbmvCopyOk e b) : sbmvLoopOk a e :=
  sbmvBatchLoop_ok_of_all a e hall a.batch_count.toNat 0

/- ## Counts of the handle events in the fixed sub-traces -/

theorem countEvent_sbmvAllocEvents (a : SbmvArgs) (ev : Event)
    (hA : ∀ s, ev ≠ Event.allocDevice s) : countEvent ev (sbmvAllocEvents a) = 0 := by
  apply countEvent_eq_zero_of_not_mem
  intro h
  unfold sbmvAllocEvents at h
  simp only [List.mem_append, List.mem_replicate, List.mem_cons,
    List.not_mem_nil, or_false] at h
  rcases h with ((⟨-, h⟩ | ⟨-, h⟩) | ⟨-, h⟩) | (h | h | h) <;> exact hA _ h

/- ## Concrete environments and arguments for witnesses -/

/-- Environment in which every external call of `testing_her2k`
succeeds. -/
def envAllOk : Her2kEnv := ⟨HipblasStatus.success, true, true, true, true⟩

/-- Environment in which every external call of `testing_sbmv_batched`
succeeds. -/
def senvAllOk : SbmvEnv :=
  ⟨HipblasStatus.success, true, true, true, true, true, true,
   fun _ => true, fun _ => true, fun _ => true, true, true, true, fun _ => true⟩

/- ## Claim C1 -/

/-- C1: whenever a dimension is negative, a leading dimension is below
the minimum required by the access pattern (`ldc < N`, and `lda` or
`ldb` below `N` or `K` depending on `transA`, for her2k; `lda < K + 1`
for sbmv_batched), or an increment is zero, the routine returns the
invalid-value status with an empty trace: before any host or device
allocation and before handle creation. -/
theorem validation_rejects_before_alloc :
    (∀ (a : Her2kArgs) (e : Her2kEnv),
      (a.N < 0 ∨ a.K < 0 ∨ a.ldc < a.N
        ∨ (a.transA = HipblasOperation.N ∧ (a.lda < a.N ∨ a.ldb < a.N))
        ∨ (a.transA ≠ HipblasOperation.N ∧ (a.lda < a.K ∨ a.ldb < a.K))) →
      testing_her2k a e = (HipblasStatus.invalidValue, []))
    ∧ (∀ (a : SbmvArgs) (e : SbmvEnv),
      (a.M < 0 ∨ a.K < 0 ∨ a.lda < a.K + 1 ∨ a.incx = 0 ∨ a.incy = 0
        ∨ a.batch_count < 0) →
      testing_sbmv_batched a e = (HipblasStatus.invalidValue, [])) := by
  constructor
  · intro a e h
    unfold testing_her2k
    rw [if_pos (show her2kInvalid a from h)]
  · intro a e h
    unfold testing_sbmv_batched
    rw [if_pos (show sbmvInvalid a from h)]

/-- Witness for C1: a her2k call with N = -1 and an sbmv_batched call
with M = -1 are both rejected with an empty trace. -/
theorem validation_rejects_before_alloc_witness :
    testing_her2k
        ⟨-1, 0, 1, 1, 1, HipblasOperation.N, HipblasFillMode.upper, false, false⟩
        envAllOk
      = (HipblasStatus.invalidValue, [])
    ∧ testing_sbmv_batched
        ⟨-1, 0, 1, 1, 1, 0, HipblasFillMode.upper, false⟩ senvAllOk
      = (HipblasStatus.invalidValue, []) :=
  ⟨validation_rejects_before_alloc.1 _ _ (Or.inl (by decide)),
   validation_rejects_before_alloc.2 _ _ (Or.inl (by decide))⟩

/- ## Claim C2 -/

/-- C2: with a zero batch count and all other parameters passing the
sanity check, `testing_sbmv_batched` returns success with an empty
trace: no allocation, no buffer access, no handle creation. -/
theorem sbmv_batch_count_zero_success :
    ∀ (a : SbmvArgs) (e : SbmvEnv), ¬ sbmvInvalid a → a.batch_count = 0 →
      testing_sbmv_batched a e = (HipblasStatus.success, []) := by
  intro a e h h0
  unfold testing_sbmv_batched
  rw [if_neg h, if_pos h0]

/-- Witness for C2 at M = 1, K = 0, lda = 1, unit increments,
batch_count = 0. -/
theorem sbmv_batch_count_zero_success_witness :
    testing_sbmv_batched ⟨1, 0, 1, 1, 1, 0, HipblasFillMode.upper, false⟩ senvAllOk
      = (HipblasStatus.success, []) :=
  sbmv_batch_count_zero_success _ _ (by decide) (by decide)

/- ## Claim C5 -/

/-- Counterexample to C5: at K = -1 the invalid-value status is indeed
returned, but the handle is destroyed zero times, not exactly once,
because the sanity check fires before `hipblasCreate`. -/
theorem negative_K_no_destroy_counterexample :
    (testing_her2k
        ⟨1, -1, 1, 1, 1, HipblasOperation.N, HipblasFillMode.upper, false, false⟩
        envAllOk).1
      = HipblasStatus.invalidValue
    ∧ countEvent Event.destroyHandle
        (testing_her2k
          ⟨1, -1, 1, 1, 1, HipblasOperation.N, HipblasFillMode.upper, false, false⟩
          envAllOk).2
      = 0 := by
  decide

/-- C5 amended: a negative K yields the invalid-value status before the
handle is ever created, so the handle is created zero times and
destroyed zero times. -/
theorem negative_K_rejected_before_handle :
    (∀ (a : Her2kArgs) (e : Her2kEnv), a.K < 0 →
      (testing_her2k a e).1 = HipblasStatus.invalidValue
      ∧ countEvent Event.createHandle (testing_her2k a e).2 = 0
      ∧ countEvent Event.destroyHandle (testing_her2k a e).2 = 0)
    ∧ (∀ (a : SbmvArgs) (e : SbmvEnv), a.K < 0 →
      (testing_sbmv_batched a e).1 = HipblasStatus.invalidValue
      ∧ countEvent Event.createHandle (testing_sbmv_batched a e).2 = 0
      ∧ countEvent Event.destroyHandle (testing_sbmv_batched a e).2 = 0) := by
  constructor
  · intro a e hK
    unfold testing_her2k
    rw [if_pos (show her2kInvalid a from Or.inr (Or.inl hK))]
    exact ⟨rfl, rfl, rfl⟩
  · intro a e hK
    unfold testing_sbmv_batched
    rw [if_pos (show sbmvInvalid a from Or.inr (Or.inl hK))]
    exact ⟨rfl, rfl, rfl⟩

/-- Witness for the amended C5 at K = -1 for both routines. -/
theorem negative_K_rejected_before_handle_witness :
    ((testing_her2k
        ⟨2, -1, 2, 2, 2, HipblasOperation.N, HipblasFillMode.upper, false, false⟩
        envAllOk).1
      = HipblasStatus.invalidValue
    ∧ countEvent Event.createHandle
        (testing_her2k
          ⟨2, -1, 2, 2, 2, HipblasOperation.N, HipblasFillMode.upper, false, false⟩
          envAllOk).2
      = 0
    ∧ countEvent Event.destroyHandle
        (testing_her2k
          ⟨2, -1, 2, 2, 2, HipblasOperation.N, HipblasFillMode.upper, false, false⟩
          envAllOk).2
      = 0)
    ∧ ((testing_sbmv_batched ⟨2, -1, 2, 1, 1, 1, HipblasFillMode.upper, false⟩
        senvAllOk).1
      = HipblasStatus.invalidValue
    ∧ countEvent Event.createHandle
        (testing_sbmv_batched ⟨2, -1, 2, 1, 1, 1, HipblasFillMode.upper, false⟩
          senvAllOk).2
      = 0
    ∧ countEvent Event.destroyHandle
        (testing_sbmv_batched ⟨2, -1, 2, 1, 1, 1, HipblasFillMode.upper, false⟩
          senvAllOk).2
      = 0) :=
  ⟨negative_K_rejected_before_handle.1 _ envAllOk (by decide),
   negative_K_rejected_before_handle.2 _ senvAllOk (by decide)⟩

/- ## Claim C10 -/

/-- Counterexample to C10: the sanity check accepts `incx = -1`
(only zero increments are rejected), and then `X_size = M * incx` is
negative. -/
theorem sbmv_negative_size_counterexample :
    ¬ sbmvInvalid (⟨1, 0, 1, -1, 1, 1, HipblasFillMode.upper, false⟩ : SbmvArgs)
    ∧ sbmvXsize ⟨1, 0, 1, -1, 1, 1, HipblasFillMode.upper, false⟩ < 0 := by
  decide

/-- C10 amended: for inputs accepted by the sanity check, `A_size` is
always nonnegative, and `X_size` and `Y_size` are nonnegative whenever
the corresponding increment is positive; a negative increment passes the
check and makes the size negative. -/
theorem sbmv_sizes_nonneg :
    ∀ a : SbmvArgs, ¬ sbmvInvalid a →
      0 ≤ sbmvAsize a
      ∧ (0 < a.incx → 0 ≤ sbmvXsize a)
      ∧ (0 < a.incy → 0 ≤ sbmvYsize a) := by
  intro a h
  unfold sbmvInvalid at h
  push_neg at h
  obtain ⟨hM, hK, hlda, -, -, -⟩ := h
  refine ⟨mul_nonneg (by omega) (by omega), ?_, ?_⟩
  · intro hx
    exact mul_nonneg (by omega) (by omega)
  · intro hy
    exact mul_nonneg (by omega) (by omega)

/-- Witness for the amended C10 at M = 2, K = 1, lda = 2, unit
increments. -/
theorem sbmv_sizes_nonneg_witness :
    0 ≤ sbmvAsize ⟨2, 1, 2, 1, 1, 1, HipblasFillMode.upper, false⟩
    ∧ (0 < (⟨2, 1, 2, 1, 1, 1, HipblasFillMode.upper, false⟩ : SbmvArgs).incx →
        0 ≤ sbmvXsize ⟨2, 1, 2, 1, 1, 1, HipblasFillMode.upper, false⟩)
    ∧ (0 < (⟨2, 1, 2, 1, 1, 1, HipblasFillMode.upper, false⟩ : SbmvArgs).incy →
        0 ≤ sbmvYsize ⟨2, 1, 2, 1, 1, 1, HipblasFillMode.upper, false⟩) :=
  sbmv_sizes_nonneg _ (by decide)

/- ## Claim C3 -/

theorem sbmvOutEvents_only_d2h (a : SbmvArgs) (e : SbmvEnv) :
    ∀ ev ∈ sbmvOutEvents a e, ∃ s k, ev = Event.memcpyD2H s k := by
  intro ev h
  simp only [sbmvOutEvents, List.mem_map, List.mem_range] at h
  obtain ⟨b, -, rfl⟩ := h
  exact ⟨_, _, rfl⟩

/-- C3: a non-success status from the GPU routine aborts the test: the
handle is destroyed exactly once, exactly that status is returned, the
GPU routine was invoked exactly once (no retry), no device-to-host copy
is performed, and neither the CPU oracle nor the comparison runs.  For
sbmv_batched the hypotheses put the run on the path that reaches the GPU
call: valid arguments, a positive batch count, successful device
allocation and successful host-to-device copies. -/
theorem gpu_failure_aborts :
    (∀ (a : Her2kArgs) (e : Her2kEnv), ¬ her2kInvalid a →
      e.gpuStatus ≠ HipblasStatus.success →
      (testing_her2k a e).1 = e.gpuStatus
      ∧ countEvent Event.callGpu (testing_her2k a e).2 = 1
      ∧ countEvent Event.destroyHandle (testing_her2k a e).2 = 1
      ∧ Event.callCpu ∉ (testing_her2k a e).2
      ∧ Event.compare ∉ (testing_her2k a e).2
      ∧ ∀ s k, Event.memcpyD2H s k ∉ (testing_her2k a e).2)
    ∧ (∀ (a : SbmvArgs) (e : SbmvEnv), ¬ sbmvInvalid a → a.batch_count ≠ 0 →
      ¬ sbmvAllocFailed a e → (∀ b, sbmvCopyOk e b) → sbmvPtrOk e →
      e.gpuStatus ≠ HipblasStatus.success →
      (testing_sbmv_batched a e).1 = e.gpuStatus
      ∧ countEvent Event.callGpu (testing_sbmv_batched a e).2 = 1
      ∧ countEvent Event.destroyHandle (testing_sbmv_batched a e).2 = 1
      ∧ Event.callCpu ∉ (testing_sbmv_batched a e).2
      ∧ Event.compare ∉ (testing_sbmv_batched a e).2
      ∧ ∀ s k, Event.memcpyD2H s k ∉ (testing_sbmv_batched a e).2) := by
  constructor
  · intro a e h hg
    unfold testing_her2k
    rw [if_neg h, if_pos hg]
    refine ⟨rfl, ?_, ?_, ?_, ?_, ?_⟩
    · simp [countEvent_append, her2kPreEvents, countEvent]
    · simp [countEvent_append, her2kPreEvents, countEvent]
    · simp [her2kPreEvents]
    · simp [her2kPreEvents]
    · intro s k
      simp [her2kPreEvents]
  · intro a e h h0 halloc hall hptr hg
    have hLoop : sbmvLoopOk a e := sbmvLoopOk_of_all a e hall
    have hno := sbmvLoopEvents_no_handle a e
    unfold testing_sbmv_batched
    rw [if_neg h, if_neg h0, if_neg halloc, if_neg (not_not_intro hLoop),
      if_neg (not_not_intro hptr), if_pos hg]
    have hgpu0 : countEvent Event.callGpu (sbmvLoopEvents a e) = 0 :=
      countEvent_eq_zero_of_not_mem _ _ hno.2.2.1
    have hdes0 : countEvent Event.destroyHandle (sbmvLoopEvents a e) = 0 :=
      countEvent_eq_zero_of_not_mem _ _ hno.2.1
    have hgpuA : countEvent Event.callGpu (sbmvAllocEvents a) = 0 :=
      countEvent_sbmvAllocEvents a _ (by simp)
    have hdesA : countEvent Event.destroyHandle (sbmvAllocEvents a) = 0 :=
      countEvent_sbmvAllocEvents a _ (by simp)
    refine ⟨rfl, ?_, ?_, ?_, ?_, ?_⟩
    · simp [countEvent_append, sbmvPreEvents, sbmvPtrEvents, countEvent,
        hgpu0, hgpuA]
    · simp [countEvent_append, sbmvPreEvents, sbmvPtrEvents, countEvent,
        hdes0, hdesA]
    · simp only [List.mem_append, not_or]
      refine ⟨⟨⟨?_, hno.2.2.2.1⟩, ?_⟩, ?_⟩
      · simp [sbmvPreEvents, sbmvAllocEvents, List.mem_replicate]
      · simp [sbmvPtrEvents]
      · simp
    · simp only [List.mem_append, not_or]
      refine ⟨⟨⟨?_, hno.2.2.2.2.1⟩, ?_⟩, ?_⟩
      · simp [sbmvPreEvents, sbmvAllocEvents, List.mem_replicate]
      · simp [sbmvPtrEvents]
      · simp
    · intro s k
      simp only [List.mem_append, not_or]
      refine ⟨⟨⟨?_, hno.2.2.2.2.2 s k⟩, ?_⟩, ?_⟩
      · simp [sbmvPreEvents, sbmvAllocEvents, List.mem_replicate]
      · simp [sbmvPtrEvents]
      · simp

/-- Witness for C3: with an internal-error GPU status, her2k at
N = K = lda = ldb = ldc = 1 and sbmv_batched at M = 1, K = 0, lda = 1,
batch_count = 1 both propagate the status with a single destroy. -/
theorem gpu_failure_aborts_witness :
    ((testing_her2k
        ⟨1, 1, 1, 1, 1, HipblasOperation.N, HipblasFillMode.upper, true, false⟩
        ⟨HipblasStatus.internalError, true, true, true, true⟩).1
      = (⟨HipblasStatus.internalError, true, true, true, true⟩ : Her2kEnv).gpuStatus
    ∧ countEvent Event.callGpu
        (testing_her2k
          ⟨1, 1, 1, 1, 1, HipblasOperation.N, HipblasFillMode.upper, true, false⟩
          ⟨HipblasStatus.internalError, true, true, true, true⟩).2 = 1
    ∧ countEvent Event.destroyHandle
        (testing_her2k
          ⟨1, 1, 1, 1, 1, HipblasOperation.N, HipblasFillMode.upper, true, false⟩
          ⟨HipblasStatus.internalError, true, true, true, true⟩).2 = 1
    ∧ Event.callCpu ∉
        (testing_her2k
          ⟨1, 1, 1, 1, 1, HipblasOperation.N, HipblasFillMode.upper, true, false⟩
          ⟨HipblasStatus.internalError, true, true, true, true⟩).2
    ∧ Event.compare ∉
        (testing_her2k
          ⟨1, 1, 1, 1, 1, HipblasOperation.N, HipblasFillMode.upper, true, false⟩
          ⟨HipblasStatus.internalError, true, true, true, true⟩).2
    ∧ ∀ s k, Event.memcpyD2H s k ∉
        (testing_her2k
          ⟨1, 1, 1, 1, 1, HipblasOperation.N, HipblasFillMode.upper, true, false⟩
          ⟨HipblasStatus.internalError, true, true, true, true⟩).2)
    ∧ ((testing_sbmv_batched ⟨1, 0, 1, 1, 1, 1, HipblasFillMode.upper, true⟩
        ⟨HipblasStatus.internalError, true, true, true, true, true, true,
         fun _ => true, fun _ => true, fun _ => true, true, true, true,
         fun _ => true⟩).1
      = HipblasStatus.internalError
    ∧ countEvent Event.destroyHandle
        (testing_sbmv_batched ⟨1, 0, 1, 1, 1, 1, HipblasFillMode.upper, true⟩
          ⟨HipblasStatus.internalError, true, true, true, true, true, true,
           fun _ => true, fun _ => true, fun _ => true, true, true, true,
           fun _ => true⟩).2 = 1) := by
  refine ⟨gpu_failure_aborts.1 _ _ (by decide) (by decide), ?_, ?_⟩
  · exact (gpu_failure_aborts.2 _ _ (by decide) (by decide) (by decide)
      (fun b => ⟨rfl, rfl, rfl⟩) ⟨rfl, rfl, rfl⟩ (by decide)).1
  · exact (gpu_failure_aborts.2 _ _ (by decide) (by decide) (by decide)
      (fun b => ⟨rfl, rfl, rfl⟩) ⟨rfl, rfl, rfl⟩ (by decide)).2.2.1

/- ## Claim C7 -/

theorem countEvent_sbmvOutEvents (a : SbmvArgs) (e : SbmvEnv) (ev : Event)
    (h : ∀ s k, ev ≠ Event.memcpyD2H s k) :
    countEvent ev (sbmvOutEvents a e) = 0 := by
  apply countEvent_eq_zero_of_not_mem
  intro hm
  obtain ⟨s, k, rfl⟩ := sbmvOutEvents_only_d2h a e _ hm
  exact h s k rfl

/-- C7: on every execution path of either routine the handle is created
at most once, and it is destroyed exactly as many times as it is
created; in particular every path that creates the handle, the early
error returns included, destroys it exactly once before returning. -/
theorem handle_destroyed_iff_created :
    ∀ (a : Her2kArgs) (e : Her2kEnv) (a2 : SbmvArgs) (e2 : SbmvEnv),
      countEvent Event.createHandle (testing_her2k a e).2 ≤ 1
      ∧ countEvent Event.destroyHandle (testing_her2k a e).2
          = countEvent Event.createHandle (testing_her2k a e).2
      ∧ countEvent Event.createHandle (testing_sbmv_batched a2 e2).2 ≤ 1
      ∧ countEvent Event.destroyHandle (testing_sbmv_batched a2 e2).2
          = countEvent Event.createHandle (testing_sbmv_batched a2 e2).2 := by
  intro a e a2 e2
  have hcre0 : countEvent Event.createHandle (sbmvLoopEvents a2 e2) = 0 :=
    countEvent_eq_zero_of_not_mem _ _ (sbmvLoopEvents_no_handle a2 e2).1
  have hdes0 : countEvent Event.destroyHandle (sbmvLoopEvents a2 e2) = 0 :=
    countEvent_eq_zero_of_not_mem _ _ (sbmvLoopEvents_no_handle a2 e2).2.1
  have hcreA : countEvent Event.createHandle (sbmvAllocEvents a2) = 0 :=
    countEvent_sbmvAllocEvents a2 _ (by simp)
  have hdesA : countEvent Event.destroyHandle (sbmvAllocEvents a2) = 0 :=
    countEvent_sbmvAllocEvents a2 _ (by simp)
  have hcreO : countEvent Event.createHandle (sbmvOutEvents a2 e2) = 0 :=
    countEvent_sbmvOutEvents a2 e2 _ (by simp)
  have hdesO : countEvent Event.destroyHandle (sbmvOutEvents a2 e2) = 0 :=
    countEvent_sbmvOutEvents a2 e2 _ (by simp)
  refine ⟨?_, ?_, ?_, ?_⟩ <;>
  · simp only [testing_her2k, testing_sbmv_batched]
    repeat' split
    all_goals
      simp [countEvent_append, her2kPreEvents, sbmvPreEvents, sbmvPtrEvents,
        countEvent, countEvent_replicate, hcre0, hdes0, hcreA, hdesA, hcreO,
        hdesO]

/- ## Claim C4 -/

/-- Counterexample to C4: at N = 0 (with K = 1, lda = ldb = 1, ldc = 0,
unit_check set, all external calls succeeding) `testing_her2k` does not
return without touching buffers: it allocates a host buffer of
lda * K1 = 1 elements and still runs the comparison step. -/
theorem n_zero_counterexample :
    (⟨0, 1, 1, 1, 0, HipblasOperation.N, HipblasFillMode.upper, true, false⟩ :
        Her2kArgs).N = 0
    ∧ ¬ her2kInvalid
        (⟨0, 1, 1, 1, 0, HipblasOperation.N, HipblasFillMode.upper, true, false⟩ :
          Her2kArgs)
    ∧ Event.allocHost 1 ∈
        (testing_her2k
          ⟨0, 1, 1, 1, 0, HipblasOperation.N, HipblasFillMode.upper, true, false⟩
          envAllOk).2
    ∧ Event.compare ∈
        (testing_her2k
          ⟨0, 1, 1, 1, 0, HipblasOperation.N, HipblasFillMode.upper, true, false⟩
          envAllOk).2 := by
  decide

/-- C4 amended: at N = 0 the routine does not short-circuit; it still
allocates its buffers, creates the handle and, when `unit_check` is set,
runs the comparison (over zero columns), and it returns success exactly
when the GPU routine reports success.  Likewise `testing_sbmv_batched`
at M = 0 with a positive batch count still creates the handle. -/
theorem n_zero_runs_full_cycle :
    (∀ (a : Her2kArgs) (e : Her2kEnv), a.N = 0 → ¬ her2kInvalid a →
      e.gpuStatus = HipblasStatus.success →
      (testing_her2k a e).1 = HipblasStatus.success
      ∧ Event.allocHost (her2kAsize a) ∈ (testing_her2k a e).2
      ∧ Event.createHandle ∈ (testing_her2k a e).2
      ∧ (a.unit_check = true → Event.compare ∈ (testing_her2k a e).2))
    ∧ (∀ (a : SbmvArgs) (e : SbmvEnv), a.M = 0 → ¬ sbmvInvalid a →
      a.batch_count ≠ 0 →
      Event.createHandle ∈ (testing_sbmv_batched a e).2) := by
  constructor
  · intro a e hN h hg
    unfold testing_her2k
    rw [if_neg h, if_neg (not_not_intro hg)]
    by_cases hu : a.unit_check
    · rw [if_pos hu]
      refine ⟨rfl, ?_, ?_, fun _ => ?_⟩ <;> simp [her2kPreEvents]
    · rw [if_neg hu]
      refine ⟨rfl, ?_, ?_, fun hu2 => absurd hu2 hu⟩ <;> simp [her2kPreEvents]
  · intro a e hM h h0
    unfold testing_sbmv_batched
    rw [if_neg h, if_neg h0]
    repeat' split
    all_goals simp [sbmvPreEvents]

/-- Witness for the amended C4: her2k at the N = 0 input of the
counterexample, and sbmv_batched at M = 0 with batch_count = 1. -/
theorem n_zero_runs_full_cycle_witness :
    ((testing_her2k
        ⟨0, 1, 1, 1, 0, HipblasOperation.N, HipblasFillMode.upper, true, false⟩
        envAllOk).1 = HipblasStatus.success
    ∧ Event.allocHost
        (her2kAsize
          ⟨0, 1, 1, 1, 0, HipblasOperation.N, HipblasFillMode.upper, true, false⟩) ∈
        (testing_her2k
          ⟨0, 1, 1, 1, 0, HipblasOperation.N, HipblasFillMode.upper, true, false⟩
          envAllOk).2
    ∧ Event.createHandle ∈
        (testing_her2k
          ⟨0, 1, 1, 1, 0, HipblasOperation.N, HipblasFillMode.upper, true, false⟩
          envAllOk).2
    ∧ ((⟨0, 1, 1, 1, 0, HipblasOperation.N, HipblasFillMode.upper, true, false⟩ :
          Her2kArgs).unit_check = true →
        Event.compare ∈
          (testing_her2k
            ⟨0, 1, 1, 1, 0, HipblasOperation.N, HipblasFillMode.upper, true, false⟩
            envAllOk).2))
    ∧ Event.createHandle ∈
        (testing_sbmv_batched ⟨0, 0, 1, 1, 1, 1, HipblasFillMode.upper, false⟩
          senvAllOk).2 :=
  ⟨n_zero_runs_full_cycle.1 _ _ (by decide) (by decide) (by decide),
   n_zero_runs_full_cycle.2 _ _ (by decide) (by decide) (by decide)⟩

/- ## Claim C6 -/

/-- Counterexample to C6: in `testing_her2k` the host-to-device copy of
hA fails (its `ok` flag is false in the trace) yet the routine neither
destroys the handle early nor returns the mapping-error status: it
returns success.  Transfer failures are silently ignored there. -/
theorem her2k_ignores_copy_failure_counterexample :
    Event.memcpyH2D
        (her2kAsize
          ⟨1, 1, 1, 1, 1, HipblasOperation.N, HipblasFillMode.upper, false, false⟩)
        false ∈
      (testing_her2k
        ⟨1, 1, 1, 1, 1, HipblasOperation.N, HipblasFillMode.upper, false, false⟩
        ⟨HipblasStatus.success, false, true, true, true⟩).2
    ∧ (testing_her2k
        ⟨1, 1, 1, 1, 1, HipblasOperation.N, HipblasFillMode.upper, false, false⟩
        ⟨HipblasStatus.success, false, true, true, true⟩).1
      = HipblasStatus.success := by
  decide

/-- C6 amended: in `testing_sbmv_batched` a failed host-to-device copy
(whether a per-batch data copy or a pointer-array copy) destroys the
handle and returns the mapping-error status; but `testing_her2k`
discards every transfer status (its returned status depends only on the
GPU status), and so does the device-to-host result copy of
sbmv_batched. -/
theorem transfer_failure_policy :
    (∀ (a : SbmvArgs) (e : SbmvEnv), ¬ sbmvInvalid a → a.batch_count ≠ 0 →
      ¬ sbmvAllocFailed a e → ¬ sbmvLoopOk a e →
      (testing_sbmv_batched a e).1 = HipblasStatus.mappingError
      ∧ countEvent Event.destroyHandle (testing_sbmv_batched a e).2 = 1)
    ∧ (∀ (a : SbmvArgs) (e : SbmvEnv), ¬ sbmvInvalid a → a.batch_count ≠ 0 →
      ¬ sbmvAllocFailed a e → sbmvLoopOk a e → ¬ sbmvPtrOk e →
      (testing_sbmv_batched a e).1 = HipblasStatus.mappingError
      ∧ countEvent Event.destroyHandle (testing_sbmv_batched a e).2 = 1)
    ∧ (∀ (a : Her2kArgs) (e e2 : Her2kEnv), e.gpuStatus = e2.gpuStatus →
      (testing_her2k a e).1 = (testing_her2k a e2).1) := by
  refine ⟨?_, ?_, ?_⟩
  · intro a e h h0 halloc hlp
    have hdes0 : countEvent Event.destroyHandle (sbmvLoopEvents a e) = 0 :=
      countEvent_eq_zero_of_not_mem _ _ (sbmvLoopEvents_no_handle a e).2.1
    have hdesA : countEvent Event.destroyHandle (sbmvAllocEvents a) = 0 :=
      countEvent_sbmvAllocEvents a _ (by simp)
    unfold testing_sbmv_batched
    rw [if_neg h, if_neg h0, if_neg halloc, if_pos hlp]
    exact ⟨rfl, by simp [countEvent_append, sbmvPreEvents, countEvent, hdes0, hdesA]⟩
  · intro a e h h0 halloc hlp hptr
    have hdes0 : countEvent Event.destroyHandle (sbmvLoopEvents a e) = 0 :=
      countEvent_eq_zero_of_not_mem _ _ (sbmvLoopEvents_no_handle a e).2.1
    have hdesA : countEvent Event.destroyHandle (sbmvAllocEvents a) = 0 :=
      countEvent_sbmvAllocEvents a _ (by simp)
    unfold testing_sbmv_batched
    rw [if_neg h, if_neg h0, if_neg halloc, if_neg (not_not_intro hlp), if_pos hptr]
    exact ⟨rfl, by simp [countEvent_append, sbmvPreEvents, sbmvPtrEvents,
      countEvent, hdes0, hdesA]⟩
  · intro a e e2 heq
    unfold testing_her2k
    by_cases h : her2kInvalid a
    · rw [if_pos h, if_pos h]
    · rw [if_neg h, if_neg h, heq]
      by_cases hg : e2.gpuStatus ≠ HipblasStatus.success
      · rw [if_pos hg, if_pos hg]
      · rw [if_neg hg, if_neg hg]
        by_cases hu : a.unit_check = true <;> simp [hu]

/-- Witness for the amended C6: a failed per-batch copy at
batch_count = 1 yields mapping-error with one destroy, and her2k's
status at the counterexample environment equals its status with all
transfers succeeding. -/
theorem transfer_failure_policy_witness :
    ((testing_sbmv_batched ⟨1, 0, 1, 1, 1, 1, HipblasFillMode.upper, false⟩
        ⟨HipblasStatus.success, true, true, true, true, true, true,
         fun _ => false, fun _ => true, fun _ => true, true, true, true,
         fun _ => true⟩).1
      = HipblasStatus.mappingError
    ∧ countEvent Event.destroyHandle
        (testing_sbmv_batched ⟨1, 0, 1, 1, 1, 1, HipblasFillMode.upper, false⟩
          ⟨HipblasStatus.success, true, true, true, true, true, true,
           fun _ => false, fun _ => true, fun _ => true, true, true, true,
           fun _ => true⟩).2
      = 1)
    ∧ (testing_her2k
        ⟨1, 1, 1, 1, 1, HipblasOperation.N, HipblasFillMode.upper, false, false⟩
        ⟨HipblasStatus.success, false, true, true, true⟩).1
      = (testing_her2k
          ⟨1, 1, 1, 1, 1, HipblasOperation.N, HipblasFillMode.upper, false, false⟩
          envAllOk).1 :=
  ⟨transfer_failure_policy.1 _ _ (by decide) (by decide) (by decide) (by decide),
   transfer_failure_policy.2.2 _ _ _ rfl⟩

/- ## Claim C8 -/

theorem sbmvInitArrays_eq_replicate (f : Nat → Int) (M lda incx incy : Int) :
    ∀ n c, sbmvInitArrays f M lda incx incy n c
      = List.replicate n (sbmvInitBatch f M lda incx incy 0).1 := by
  intro n
  induction n with
  | zero => intro c; rfl
  | succ n ih =>
    intro c
    simp only [sbmvInitArrays]
    rw [ih, List.replicate_succ]

theorem getElem?_replicate_of_lt {α : Type} (x : α) :
    ∀ (n m : Nat), m < n → (List.replicate n x)[m]? = some x := by
  intro n
  induction n with
  | zero => intro m h; exact absurd h (Nat.not_lt_zero m)
  | succ n ih =>
    intro m h
    rw [List.replicate_succ]
    cases m with
    | zero => simp
    | succ m => simpa using ih m (Nat.lt_of_succ_lt_succ h)

/-- C8: because `srand(1)` is called again at the start of every
iteration of the initialization loop, any two batch items of
`testing_sbmv_batched` receive element-wise identical host buffers
hA, hx and hy, whatever the deterministic random stream `f` is. -/
theorem sbmv_batches_identical :
    ∀ (f : Nat → Int) (M lda incx incy : Int) (bc b1 b2 c : Nat),
      b1 < bc → b2 < bc →
      (sbmvInitArrays f M lda incx incy bc c)[b1]?
        = (sbmvInitArrays f M lda incx incy bc c)[b2]? := by
  intro f M lda incx incy bc b1 b2 c h1 h2
  rw [sbmvInitArrays_eq_replicate, getElem?_replicate_of_lt _ _ _ h1,
    getElem?_replicate_of_lt _ _ _ h2]

/-- Witness for C8: with the stream f k = k, M = 2, lda = 2, unit
increments and two batch items, items 0 and 1 coincide. -/
theorem sbmv_batches_identical_witness :
    (sbmvInitArrays (fun k => (k : Int)) 2 2 1 1 2 0)[0]?
      = (sbmvInitArrays (fun k => (k : Int)) 2 2 1 1 2 0)[1]? :=
  sbmv_batches_identical (fun k => (k : Int)) 2 2 1 1 2 0 1 0
    (by decide) (by decide)

/- ## Claim C9 -/

/-- Counterexample to C9: the input N = 1, K = 2, lda = 1, ldb = 2,
ldc = 1 with transA = N passes the sanity check; the B buffers hold
B_size = lda * K1 = 2 elements, but the initialization of hB, writing
with stride ldb = 2, writes index 2, outside that allocation. -/
theorem her2k_hB_overflow_counterexample :
    ¬ her2kInvalid
        (⟨1, 2, 1, 2, 1, HipblasOperation.N, HipblasFillMode.upper, false, false⟩ :
          Her2kArgs)
    ∧ her2kBsize
        (⟨1, 2, 1, 2, 1, HipblasOperation.N, HipblasFillMode.upper, false, false⟩ :
          Her2kArgs) = 2
    ∧ (2 : Int) ∈
        initWrites
          (⟨1, 2, 1, 2, 1, HipblasOperation.N, HipblasFillMode.upper, false, false⟩ :
            Her2kArgs).N
          (her2kK1
            (⟨1, 2, 1, 2, 1, HipblasOperation.N, HipblasFillMode.upper, false, false⟩ :
              Her2kArgs))
          (⟨1, 2, 1, 2, 1, HipblasOperation.N, HipblasFillMode.upper, false, false⟩ :
            Her2kArgs).ldb
    ∧ ¬ ((2 : Int) <
        her2kBsize
          (⟨1, 2, 1, 2, 1, HipblasOperation.N, HipblasFillMode.upper, false, false⟩ :
            Her2kArgs)) := by
  decide

/-- C9 amended: the host and device B buffers are indeed allocated with
lda * K1 elements (not ldb * K1), but the initialization of hB, which
writes with stride ldb, stays within that allocation only under the
additional conditions ldb ≤ lda and N ≤ lda, which the sanity check
does not enforce. -/
theorem her2k_B_alloc_and_init_bounds :
    ∀ (a : Her2kArgs) (e : Her2kEnv), ¬ her2kInvalid a →
      a.ldb ≤ a.lda → a.N ≤ a.lda →
      her2kBsize a = a.lda * her2kK1 a
      ∧ Event.allocHost (her2kBsize a) ∈ (testing_her2k a e).2
      ∧ Event.allocDevice (her2kBsize a) ∈ (testing_her2k a e).2
      ∧ ∀ idx ∈ initWrites a.N (her2kK1 a) a.ldb,
          0 ≤ idx ∧ idx < her2kBsize a := by
  intro a e h hba hna
  have h2 := h
  unfold her2kInvalid at h2
  push_neg at h2
  obtain ⟨hN, hK, hldc, hTN, hTT⟩ := h2
  have hldb0 : 0 ≤ a.ldb := by
    by_cases ht : a.transA = HipblasOperation.N
    · have := (hTN ht).2; omega
    · have := (hTT ht).2; omega
  have hlda0 : 0 ≤ a.lda := le_trans hN hna
  refine ⟨rfl, ?_, ?_, ?_⟩
  · unfold testing_her2k
    rw [if_neg h]
    repeat' split
    all_goals simp [her2kPreEvents, her2kBsize, her2kAsize]
  · unfold testing_her2k
    rw [if_neg h]
    repeat' split
    all_goals simp [her2kPreEvents, her2kBsize, her2kAsize]
  · intro idx hidx
    unfold initWrites at hidx
    rw [List.mem_flatMap] at hidx
    obtain ⟨i, hi, hidx⟩ := hidx
    rw [List.mem_map] at hidx
    obtain ⟨j, hj, rfl⟩ := hidx
    rw [List.mem_range] at hi hj
    have hiN : (i : Int) < a.N := by omega
    have hjK : (j : Int) < her2kK1 a := by omega
    have hi0 : (0 : Int) ≤ (i : Int) := Int.ofNat_nonneg i
    have hj0 : (0 : Int) ≤ (j : Int) := Int.ofNat_nonneg j
    constructor
    · have : (0 : Int) ≤ (j : Int) * a.ldb := mul_nonneg hj0 hldb0
      omega
    · have hstep1 : (j : Int) * a.ldb ≤ (j : Int) * a.lda :=
        mul_le_mul_of_nonneg_left hba hj0
      have hstep2 : (j : Int) * a.lda ≤ (her2kK1 a - 1) * a.lda :=
        mul_le_mul_of_nonneg_right (by omega) hlda0
      have hcomm : a.lda * her2kK1 a = her2kK1 a * a.lda := mul_comm _ _
      unfold her2kBsize
      nlinarith [hstep1, hstep2, hcomm, hiN, hna]

/-- Witness for the amended C9 at N = 2, K = 2, lda = 2, ldb = 2,
ldc = 2, transA = N: every index written into hB lies inside the
lda * K1 = 4 element allocation. -/
theorem her2k_B_alloc_and_init_bounds_witness :
    her2kBsize
        (⟨2, 2, 2, 2, 2, HipblasOperation.N, HipblasFillMode.upper, false, false⟩ :
          Her2kArgs)
      = (⟨2, 2, 2, 2, 2, HipblasOperation.N, HipblasFillMode.upper, false, false⟩ :
          Her2kArgs).lda
        * her2kK1
            (⟨2, 2, 2, 2, 2, HipblasOperation.N, HipblasFillMode.upper, false,
              false⟩ : Her2kArgs)
    ∧ Event.allocHost
        (her2kBsize
          (⟨2, 2, 2, 2, 2, HipblasOperation.N, HipblasFillMode.upper, false,
            false⟩ : Her2kArgs)) ∈
        (testing_her2k
          ⟨2, 2, 2, 2, 2, HipblasOperation.N, HipblasFillMode.upper, false, false⟩
          envAllOk).2
    ∧ Event.allocDevice
        (her2kBsize
          (⟨2, 2, 2, 2, 2, HipblasOperation.N, HipblasFillMode.upper, false,
            false⟩ : Her2kArgs)) ∈
        (testing_her2k
          ⟨2, 2, 2, 2, 2, HipblasOperation.N, HipblasFillMode.upper, false, false⟩
          envAllOk).2
    ∧ ∀ idx ∈
        initWrites
          (⟨2, 2, 2, 2, 2, HipblasOperation.N, HipblasFillMode.upper, false,
            false⟩ : Her2kArgs).N
          (her2kK1
            (⟨2, 2, 2, 2, 2, HipblasOperation.N, HipblasFillMode.upper, false,
              false⟩ : Her2kArgs))
          (⟨2, 2, 2, 2, 2, HipblasOperation.N, HipblasFillMode.upper, false,
            false⟩ : Her2kArgs).ldb,
        0 ≤ idx ∧ idx <
          her2kBsize
            (⟨2, 2, 2, 2, 2, HipblasOperation.N, HipblasFillMode.upper, false,
              false⟩ : Her2kArgs) :=
  her2k_B_alloc_and_init_bounds _ envAllOk (by decide) (by decide) (by decide)

end HipblasTest
